import Mathlib

/-!
Shallow embedding of the `az-iranian-bank-gateways` payment-gateway core:
the PEC and Sepehr bank adapters (src/azbankgateways/banks/pec.py,
src/azbankgateways/banks/sepehr.py) and the callback router
(src/azbankgateways/views/banks.py).

Conventions of the embedding:
- Django `QueryDict`s (request.GET / request.POST) are association lists
  `List (String × String)`; `QueryDict.get(key)` is `getParam`,
  `QueryDict.get(key, d)` is `(getParam ps key).getD d`.
- Python truthiness of an optional string (`if not x:` / `a or b`) is
  `truthy` / `pyOr`.
- A parsed JSON body is `JObj`, an association list of keys to values that
  are either numbers or strings (the only shapes the adapters inspect);
  `response_json.get(k)` is `jget`.
- The outcome of an outbound HTTP/SOAP call is an explicit input of each
  function: `HttpOutcome` for `requests.post` (timeout, connection error,
  or a response whose body may or may not parse as JSON), and
  `Except String r` for a zeep SOAP invocation (a transport/parse
  exception message, or a result record).
- A raised gateway exception is modelled as the first component
  `Option GatewayError` of the result; the second component is the final
  state of the mutated record (`self` / `self._bank`), since in Python
  mutations performed before a raise persist.
-/

set_option autoImplicit false

namespace AzBankGateways

/-- The payment lifecycle states of `azbankgateways.models.PaymentStatus`. -/
inductive PaymentStatus where
  | INIT
  | REDIRECT_TO_BANK
  | CALLBACK_RECEIVED
  | COMPLETE
  | CANCEL_BY_USER
  | ERROR
deriving DecidableEq, Repr

/-- The bank types of `azbankgateways.models.BankType` used by the two adapters. -/
inductive BankType where
  | PEC
  | SEPEHR
deriving DecidableEq, Repr

/-- Currencies of `azbankgateways.models.CurrencyEnum`. -/
inductive CurrencyEnum where
  | IRR
  | IRT
deriving DecidableEq, Repr

/-- The gateway exceptions raised by the adapters
(`azbankgateways.exceptions`): a bank-reported business rejection and a
transport-level connection error, each carrying a message. -/
inductive GatewayError where
  | BankGatewayRejectPayment (message : String)
  | BankGatewayConnectionError (message : String)
deriving DecidableEq, Repr

/-- The Transaction Record: the fields of the Django model `Bank` that the
embedded code reads or writes. -/
structure Bank where
  bank_type : BankType
  bank_choose_identifier : Option String
  tracking_code : Option String
  reference_number : Option String
  amount : Nat
  status : PaymentStatus
  transaction_status_text : String
  extra_information : String
  card_hash_number : String
deriving DecidableEq, Repr

/-- Python truthiness of an optional string: `None` and `""` are falsy. -/
def truthy (o : Option String) : Bool :=
  match o with
  | none => false
  | some s => if s = "" then false else true

/-- Python `a or b` on optional strings. -/
def pyOr (a b : Option String) : Option String :=
  if truthy a then a else b

/-- Python `a or d` where `d` is a plain string, as in
`bank_record.bank_choose_identifier or "1"`. -/
def pyOrStr (a : Option String) (d : String) : String :=
  if truthy a then a.getD "" else d

/-- Django `QueryDict.get(key)`: the value of the first pair with the given
key, or `none`. -/
def getParam (ps : List (String × String)) (k : String) : Option String :=
  (ps.find? (fun p => p.1 == k)).map (fun p => p.2)

/-- A JSON value as inspected by the Sepehr adapter: a number or a string. -/
inductive JVal where
  | jnum (n : Int)
  | jstr (s : String)
deriving DecidableEq, Repr

/-- A parsed JSON object body. -/
abbrev JObj := List (String × JVal)

/-- Python `response_json.get(k)`. -/
def jget (o : JObj) (k : String) : Option JVal :=
  (o.find? (fun p => p.1 == k)).map (fun p => p.2)

/-- Python `k in response_json`. -/
def jmem (o : JObj) (k : String) : Bool :=
  (o.find? (fun p => p.1 == k)).isSome

/-- The string value of a JSON field, when it is a string (the adapters'
`Message`, `Accesstoken`, ... fields are strings). -/
def jgetStr (o : JObj) (k : String) : Option String :=
  match jget o k with
  | some (JVal.jstr s) => some s
  | _ => none

/-- The outcome of a `requests.post` call as seen by `Sepehr._send_data`:
a timeout (`requests.Timeout`), a connection error
(`requests.ConnectionError`), or a response whose body parses as JSON
(`some body`) or does not (`none`, the `ValueError` case). -/
inductive HttpOutcome where
  | timeout
  | connectionError
  | response (body : Option JObj)
deriving DecidableEq, Repr

/-- Modelled from the spec: `BaseBank.pay` (class `BaseBank`, module
`azbankgateways.banks.banks`) is not under src/; per the spec there the
record leaves INIT only when the pay leg succeeds, so the shared
`super().pay()` pre-call step performs no status transition and is
modelled as the identity on the record. -/
def base_pay (bank : Bank) : Bank := bank

/-- Modelled from the spec: `BaseBank.prepare_pay` is not under src/. The
PEC override's own guard and comment (`# Generate a unique order ID if not
already set`, followed by `if not self.get_tracking_code():`) show the
record reaches the override with the tracking code possibly still unset,
so the shared step is modelled as leaving the tracking code unchanged. -/
def base_prepare_pay (bank : Bank) : Bank := bank

/-- Modelled from the spec: `BaseBank.verify` is not under src/; the
verify outcome mapping lives entirely in the overrides, so the shared
`super().verify(...)` step is modelled as the identity on the record. -/
def base_verify (bank : Bank) : Bank := bank

/-- Embedding of `Sepehr._send_data` (sepehr.py lines 139-159). Timeout and
connection errors raise `BankGatewayConnectionError()`; an unparseable body
is replaced by the empty JSON object `{}` (only logged); when the body has a
`"Message"` key its value is stored in `transaction_status_text`; the
parsed (possibly empty) object is returned. -/
def sepehr_send_data (http : HttpOutcome) (bank : Bank) :
    Except GatewayError (Bank × JObj) :=
  match http with
  | HttpOutcome.timeout => Except.error (GatewayError.BankGatewayConnectionError "")
  | HttpOutcome.connectionError => Except.error (GatewayError.BankGatewayConnectionError "")
  | HttpOutcome.response body =>
    let response_json : JObj := body.getD []
    let bank1 :=
      if jmem response_json "Message" then
        { bank with transaction_status_text := (jgetStr response_json "Message").getD "" }
      else bank
    Except.ok (bank1, response_json)

/-- Embedding of `Sepehr.pay` (sepehr.py lines 53-64): on `Status == 0` the
access token becomes the reference number; otherwise the status text is set
from `Message` (default `"Unknown error"`) and `BankGatewayRejectPayment`
is raised. -/
def sepehr_pay (http : HttpOutcome) (bank : Bank) : Option GatewayError × Bank :=
  let bank := base_pay bank
  match sepehr_send_data http bank with
  | Except.error e => (some e, bank)
  | Except.ok (bank1, response_json) =>
    if jget response_json "Status" = some (JVal.jnum 0) then
      (none, { bank1 with reference_number := jgetStr response_json "Accesstoken" })
    else
      let text := (jgetStr response_json "Message").getD "Unknown error"
      (some (GatewayError.BankGatewayRejectPayment text),
       { bank1 with transaction_status_text := text })

/-- Embedding of `Sepehr.verify` (sepehr.py lines 128-137): `Status ==
"OK"` yields COMPLETE and every other returned body yields
CANCEL_BY_USER. -/
def sepehr_verify (http : HttpOutcome) (bank : Bank) : Option GatewayError × Bank :=
  let bank := base_verify bank
  match sepehr_send_data http bank with
  | Except.error e => (some e, bank)
  | Except.ok (bank1, response_json) =>
    if jget response_json "Status" = some (JVal.jstr "OK") then
      (none, { bank1 with status := PaymentStatus.COMPLETE })
    else
      (none, { bank1 with status := PaymentStatus.CANCEL_BY_USER })

/-- Embedding of `Sepehr.get_pay_data` (sepehr.py lines 41-48): the
`Amount` field sent to the bank is `str(int(gateway_amount) * 10)`. -/
def sepehr_get_pay_data (terminal_id callback_url tracking_code : String)
    (gateway_amount : Nat) : List (String × String) :=
  [("Amount", Nat.repr (gateway_amount * 10)),
   ("callbackURL", callback_url),
   ("invoiceID", tracking_code),
   ("terminalID", terminal_id)]

/-- `Sepehr.__init__` calls `self.set_gateway_currency(CurrencyEnum.IRR)`. -/
def sepehr_gateway_currency : CurrencyEnum := CurrencyEnum.IRR

/-- The result of the PEC SOAP `SalePaymentRequest` call: the fields the
adapter reads. -/
structure PECPayResult where
  Status : Int
  Message : String
  Token : String
deriving DecidableEq, Repr

/-- A Python exception in flight inside `PEC.pay`'s `try` block: either the
`BankGatewayRejectPayment` the adapter itself raises on `Status != 0`, or
an exception from the SOAP transport layer. -/
inductive PyExc where
  | reject (message : String)
  | transport (message : String)
deriving DecidableEq, Repr

/-- Python `str(ex)` for the exceptions of `PyExc`. -/
def pyExcStr (e : PyExc) : String :=
  match e with
  | PyExc.reject m => m
  | PyExc.transport m => m

/-- The body of the `try` block of `PEC.pay` (pec.py lines 58-68): a failed
SOAP invocation is a raised transport exception; a result with
`Status != 0` sets the status text and raises `BankGatewayRejectPayment`;
otherwise the token becomes the reference number. -/
def pec_pay_try (resp : Except String PECPayResult) (bank : Bank) :
    Except (PyExc × Bank) Bank :=
  match resp with
  | Except.error ex => Except.error (PyExc.transport ex, bank)
  | Except.ok result =>
    if result.Status ≠ 0 then
      let text := "Error: " ++ result.Message
      Except.error (PyExc.reject text, { bank with transaction_status_text := text })
    else
      Except.ok { bank with reference_number := some result.Token }

/-- Embedding of `PEC.pay` (pec.py lines 53-71): the `except Exception as
ex` clause catches every exception of the `try` block — including the
`BankGatewayRejectPayment` raised inside it — and re-raises
`BankGatewayConnectionError(str(ex))`. -/
def pec_pay (resp : Except String PECPayResult) (bank : Bank) :
    Option GatewayError × Bank :=
  let bank := base_pay bank
  match pec_pay_try resp bank with
  | Except.ok bank1 => (none, bank1)
  | Except.error (ex, bank1) =>
    (some (GatewayError.BankGatewayConnectionError (pyExcStr ex)), bank1)

/-- The result of the PEC SOAP `ConfirmPayment` call: the fields the
adapter reads; `CardNumberMasked` is optional (`hasattr` check). -/
structure PECVerifyResult where
  Status : Int
  Message : String
  CardNumberMasked : Option String
deriving DecidableEq, Repr

/-- Embedding of `PEC.verify` (pec.py lines 145-171): `Status == 0` yields
COMPLETE (storing the masked card number when present), `Status == -138`
yields CANCEL_BY_USER, any other status yields ERROR; a failed SOAP
invocation sets the status to ERROR and raises
`BankGatewayConnectionError(str(ex))`. -/
def pec_verify (resp : Except String PECVerifyResult) (bank : Bank) :
    Option GatewayError × Bank :=
  let bank := base_verify bank
  match resp with
  | Except.error ex =>
    (some (GatewayError.BankGatewayConnectionError ex),
     { bank with status := PaymentStatus.ERROR })
  | Except.ok result =>
    if result.Status = 0 then
      let bank1 := { bank with status := PaymentStatus.COMPLETE }
      match result.CardNumberMasked with
      | some card => (none, { bank1 with card_hash_number := card })
      | none => (none, bank1)
    else if result.Status = -138 then
      (none, { bank with
                status := PaymentStatus.CANCEL_BY_USER
                transaction_status_text := "Error: " ++ result.Message })
    else
      (none, { bank with
                status := PaymentStatus.ERROR
                transaction_status_text := "Error: " ++ result.Message })

/-- The PEC order-id generation of `PEC.prepare_pay` (pec.py line 50):
`str(int(str(uuid.uuid4().int)[-16:]))`. Taking the last 16 decimal digits
of the UUID integer and re-reading them as an integer is exactly
`uuid4_int % 10 ^ 16` (when the decimal rendering is shorter than 16
digits the slice is the whole string and the value is below `10 ^ 16`). -/
def pec_generate_order_id (uuid4_int : Nat) : String :=
  Nat.repr (uuid4_int % 10 ^ 16)

/-- Embedding of `PEC.prepare_pay` (pec.py lines 46-51): when the tracking
code is unset (falsy) a fresh order id is generated from the random UUID
integer; no other state is consulted. -/
def pec_prepare_pay (uuid4_int : Nat) (bank : Bank) : Bank :=
  let bank := base_prepare_pay bank
  if truthy bank.tracking_code then bank
  else { bank with tracking_code := some (pec_generate_order_id uuid4_int) }

/-- HTTP method of an inbound request. -/
inductive HttpMethod where
  | GET
  | POST
deriving DecidableEq, Repr

/-- An inbound Django request as read by the callback code: its method and
its query-string (`request.GET`) and form (`request.POST`) dictionaries. -/
structure HttpRequest where
  method : HttpMethod
  GET : List (String × String)
  POST : List (String × String)
deriving DecidableEq, Repr

/-- The fields extracted by `PEC.prepare_verify_from_gateway` (pec.py lines
90-108) before the record lookup: from `request.POST` when the method is
POST, otherwise from `request.GET` (with `""` defaults for RRN, sTraceNo
in the GET branch). -/
structure PECCallback where
  token : Option String
  order_id : Option String
  rrn : Option String
  strace_number : Option String
  card_number : String
deriving DecidableEq, Repr

/-- The extraction portion of `PEC.prepare_verify_from_gateway`. -/
def pec_prepare_verify_extract (request : HttpRequest) : PECCallback :=
  if request.method = HttpMethod.POST then
    { token := getParam request.POST "Token"
      order_id := getParam request.POST "OrderId"
      rrn := getParam request.POST "RRN"
      strace_number := getParam request.POST "sTraceNo"
      card_number := (getParam request.POST "CardNumberMasked").getD "" }
  else
    { token := getParam request.GET "Token"
      order_id := getParam request.GET "OrderId"
      rrn := some ((getParam request.GET "RRN").getD "")
      strace_number := some ((getParam request.GET "sTraceNo").getD "")
      card_number := (getParam request.GET "CardNumberMasked").getD "" }

/-- The fields extracted by `Sepehr.prepare_verify_from_gateway` (sepehr.py
lines 88-108) before the record lookup: `invoiceid`, `digitalreceipt` and
`respcode` are read from `request.POST` only. -/
structure SepehrCallback where
  tracking_code : Option String
  digital_receipt : Option String
  respcode : String
deriving DecidableEq, Repr

/-- The `AttributeError` raised by `getattr(request, "data")` on a plain
Django request, which has no `data` attribute. -/
inductive PyAttributeError where
  | attributeError
deriving DecidableEq, Repr

/-- The extraction portion of `Sepehr.prepare_verify_from_gateway`
(sepehr.py lines 88-108), including the token-scan loop (lines 90-94):
`for method in ["GET", "POST", "data"]` probes `getattr(request, method)`
for a truthy `"token"` value and breaks on the first hit. When neither
`request.GET` nor `request.POST` carries one, the third iteration
evaluates `getattr(request, "data")`, which raises `AttributeError` on the
plain Django request that `callback_view` passes in — before any field
extraction runs. Otherwise `invoiceid`, `digitalreceipt` and `respcode`
are read from `request.POST` only. -/
def sepehr_prepare_verify_extract (request : HttpRequest) :
    Except PyAttributeError SepehrCallback :=
  if truthy (getParam request.GET "token") || truthy (getParam request.POST "token") then
    Except.ok
      { tracking_code := getParam request.POST "invoiceid"
        digital_receipt := getParam request.POST "digitalreceipt"
        respcode := (getParam request.POST "respcode").getD "-1" }
  else
    Except.error PyAttributeError.attributeError

/-- The filter of the fallback lookup in `callback_view` (views/banks.py
lines 26-29): `Bank.objects.get(tracking_code=order_id,
bank_type=BankType.PEC)` matches on the tracking code and the bank type
only. -/
def pec_fallback_match (b : Bank) (order_id : String) : Bool :=
  decide (b.tracking_code = some order_id) && decide (b.bank_type = BankType.PEC)

/-- The result of a Django `Model.objects.get` call. -/
inductive GetResult where
  | found (b : Bank)
  | doesNotExist
  | multipleObjectsReturned
deriving DecidableEq, Repr

/-- Django `Bank.objects.get(tracking_code=order_id, bank_type=PEC)` over a
database modelled as a list of records: exactly one match is returned;
no match raises `DoesNotExist`; several raise `MultipleObjectsReturned`. -/
def bank_objects_get_pec (db : List Bank) (order_id : String) : GetResult :=
  match db.filter (fun b => pec_fallback_match b order_id) with
  | [] => GetResult.doesNotExist
  | [b] => GetResult.found b
  | _ => GetResult.multipleObjectsReturned

/-- The outcome of the routing portion of `callback_view` (views/banks.py
lines 14-38): an `Http404`, an uncaught `MultipleObjectsReturned`, or a
resolved `(bank_type, identifier)` pair handed to `BankFactory.create`. -/
inductive RouteOutcome where
  | http404
  | multipleObjectsReturned
  | resolved (bank_type : String) (identifier : Option String)
deriving DecidableEq, Repr

/-- Embedding of the routing portion of `callback_view` (views/banks.py
lines 14-38). A truthy `bank_type` query parameter resolves directly; an
absent/falsy one triggers the PEC fallback: `OrderId` is taken from POST
`or` GET, a falsy `OrderId` is a 404, otherwise the record is looked up by
`(tracking_code, bank_type=PEC)` — found resolves to PEC with
`bank_choose_identifier or "1"`, `DoesNotExist` is a 404. -/
def callback_route (db : List Bank) (request : HttpRequest) : RouteOutcome :=
  let bank_type := getParam request.GET "bank_type"
  let identifier := getParam request.GET "identifier"
  if truthy bank_type then
    RouteOutcome.resolved (bank_type.getD "") identifier
  else
    let order_id := pyOr (getParam request.POST "OrderId") (getParam request.GET "OrderId")
    if truthy order_id then
      match bank_objects_get_pec db (order_id.getD "") with
      | GetResult.found bank_record =>
        RouteOutcome.resolved "PEC" (some (pyOrStr bank_record.bank_choose_identifier "1"))
      | GetResult.doesNotExist => RouteOutcome.http404
      | GetResult.multipleObjectsReturned => RouteOutcome.multipleObjectsReturned
    else
      RouteOutcome.http404

/-- The HTTP response produced by `callback_view`. -/
inductive ViewResponse where
  | http404
  | serverError
  | clientRedirect
deriving DecidableEq, Repr

/-- The `bank.verify_from_gateway(request)` step as seen by the view: it
either returns normally or raises an `AZBankGatewaysException`
(`verify_raises = true`). -/
def verify_step (verify_raises : Bool) : Option Unit :=
  if verify_raises then some () else none

/-- Embedding of `callback_view` (views/banks.py lines 13-46): after
routing, `verify_from_gateway` runs inside `try ... except
AZBankGatewaysException: logging.exception(...)`, and the view returns
`bank.redirect_client_callback()` whether or not the exception was
raised. -/
def callback_view (db : List Bank) (request : HttpRequest)
    (verify_raises : Bool) : ViewResponse :=
  match callback_route db request with
  | RouteOutcome.http404 => ViewResponse.http404
  | RouteOutcome.multipleObjectsReturned => ViewResponse.serverError
  | RouteOutcome.resolved _ _ =>
    match verify_step verify_raises with
    | some _ => ViewResponse.clientRedirect
    | none => ViewResponse.clientRedirect

/-- A concrete record used by the counterexamples and witnesses. -/
def bank0 : Bank :=
  { bank_type := BankType.PEC
    bank_choose_identifier := none
    tracking_code := some "100"
    reference_number := none
    amount := 2500
    status := PaymentStatus.INIT
    transaction_status_text := ""
    extra_information := ""
    card_hash_number := "" }

/-- A Sepehr settlement response body with a generic non-success status. -/
def c2_resp : JObj := [("Status", JVal.jstr "NOK"), ("Message", JVal.jstr "failed")]

/-- A stored PEC record that is already terminal (COMPLETE). -/
def c3_rec : Bank := { bank0 with tracking_code := some "77", status := PaymentStatus.COMPLETE }

/-- A record whose caller supplied no tracking code. -/
def c5_record : Bank := { bank0 with tracking_code := none }

/-- An existing stored PEC record with tracking code `"5"`. -/
def c5_existing : Bank := { bank0 with tracking_code := some "5" }

/-- A Sepehr callback payload carrying a truthy `token` (so the token-scan
loop breaks) plus the fields the adapter looks for. -/
def c6_payload : List (String × String) :=
  [("token", "T1"), ("invoiceid", "1000"), ("digitalreceipt", "RCPT"), ("respcode", "0")]

/-- The same Sepehr callback payload without any `token` parameter. -/
def c6_tokenless : List (String × String) :=
  [("invoiceid", "1000"), ("digitalreceipt", "RCPT"), ("respcode", "0")]

/-- A callback request with no `bank_type` query parameter and an `OrderId`
matching no stored record. -/
def c7_request : HttpRequest :=
  { method := HttpMethod.POST, GET := [], POST := [("OrderId", "9")] }

/-- A callback request carrying explicit `bank_type` and `identifier`
query parameters. -/
def c9_request : HttpRequest :=
  { method := HttpMethod.GET, GET := [("bank_type", "PEC"), ("identifier", "2")], POST := [] }

/-- Helper: a filter returning a singleton list means the predicate holds
of its element. -/
theorem filter_singleton_prop {α : Type} (p : α → Bool) (l : List α) (x : α)
    (h : l.filter p = [x]) : p x = true := by
  have hx : x ∈ l.filter p := by rw [h]; exact List.mem_singleton.mpr rfl
  exact (List.mem_filter.mp hx).2

/-- C1: on a PEC pay response whose status is non-zero (a bank-reported
business rejection) the adapter surfaces `BankGatewayConnectionError`, not
`BankGatewayRejectPayment`: the rejection raised inside the `try` block of
`PEC.pay` is swallowed by the catch-all `except Exception` clause and
re-wrapped as a connection error, contradicting the claim (and the
adapter's own raise). -/
theorem c1_pec_rejection_becomes_connection_error :
    pec_pay (Except.ok { Status := 5, Message := "rejected", Token := "TOK" }) bank0
      = (some (GatewayError.BankGatewayConnectionError "Error: rejected"),
         { bank0 with transaction_status_text := "Error: rejected" }) := by
  decide

/-- C2 (counterexample): a Sepehr settlement response with a generic
non-success, non-cancel status yields CANCEL_BY_USER — not ERROR — and
raises nothing, refuting the claim that a non-cancel failure response
never yields CANCEL_BY_USER. -/
theorem c2_sepehr_error_marked_cancel :
    (sepehr_verify (HttpOutcome.response (some c2_resp)) bank0).2.status
        = PaymentStatus.CANCEL_BY_USER
  ∧ (sepehr_verify (HttpOutcome.response (some c2_resp)) bank0).2.status
        ≠ PaymentStatus.ERROR
  ∧ (sepehr_verify (HttpOutcome.response (some c2_resp)) bank0).1 = none := by
  decide

/-- C2 (amended): PEC.verify maps a settlement result onto the three
terminal outcomes exactly as the claim states (0 → COMPLETE, -138 →
CANCEL_BY_USER, any other status → ERROR, raising nothing), while
Sepehr.verify maps `"OK"` to COMPLETE and every other parsed response —
whether or not it is a cancellation — to CANCEL_BY_USER, never ERROR. -/
theorem c2_amended_verify_outcomes (bank : Bank) (r : PECVerifyResult) (o : JObj) :
    (pec_verify (Except.ok r) bank).1 = none
  ∧ (pec_verify (Except.ok r) bank).2.status =
      (if r.Status = 0 then PaymentStatus.COMPLETE
       else if r.Status = -138 then PaymentStatus.CANCEL_BY_USER
       else PaymentStatus.ERROR)
  ∧ (sepehr_verify (HttpOutcome.response (some o)) bank).1 = none
  ∧ (sepehr_verify (HttpOutcome.response (some o)) bank).2.status =
      (if jget o "Status" = some (JVal.jstr "OK") then PaymentStatus.COMPLETE
       else PaymentStatus.CANCEL_BY_USER) := by
  refine ⟨?_, ?_, ?_, ?_⟩ <;>
    simp only [pec_verify, sepehr_verify, sepehr_send_data, base_verify] <;>
    (repeat' split) <;> simp_all

/-- C3 (counterexample): the fallback lookup of the callback router
selects a stored PEC record that is already COMPLETE — not in
REDIRECT_TO_BANK — refuting the claim that only REDIRECT_TO_BANK records
can be selected. -/
theorem c3_fallback_ignores_status :
    c3_rec.status ≠ PaymentStatus.REDIRECT_TO_BANK
  ∧ bank_objects_get_pec [c3_rec] "77" = GetResult.found c3_rec
  ∧ callback_route [c3_rec] { method := HttpMethod.POST, GET := [], POST := [("OrderId", "77")] }
      = RouteOutcome.resolved "PEC" (some "1") := by
  decide

/-- C3 (amended): the fallback lookup filters on the tracking code and on
`bank_type = PEC` only; its filter is insensitive to the record's status,
so records in any lifecycle state can be selected. -/
theorem c3_amended_fallback_filter (db : List Bank) (order_id : String) (b : Bank)
    (s : PaymentStatus) (h : bank_objects_get_pec db order_id = GetResult.found b) :
    b.bank_type = BankType.PEC ∧ b.tracking_code = some order_id
  ∧ pec_fallback_match { b with status := s } order_id = pec_fallback_match b order_id := by
  have hp : pec_fallback_match b order_id = true := by
    unfold bank_objects_get_pec at h
    rcases hf : db.filter (fun b => pec_fallback_match b order_id) with _ | ⟨x, _ | ⟨y, t⟩⟩ <;>
      rw [hf] at h
    · simp at h
    · have hxb : x = b := by injection h
      exact hxb ▸ filter_singleton_prop _ db x hf
    · simp at h
  rw [pec_fallback_match, Bool.and_eq_true, decide_eq_true_iff, decide_eq_true_iff] at hp
  exact ⟨hp.2, hp.1, rfl⟩

/-- C3 (witness): the amended statement applied to a one-record database. -/
theorem c3_amended_witness :
    c3_rec.bank_type = BankType.PEC ∧ c3_rec.tracking_code = some "77"
  ∧ pec_fallback_match { c3_rec with status := PaymentStatus.ERROR } "77"
      = pec_fallback_match c3_rec "77" :=
  c3_amended_fallback_filter [c3_rec] "77" c3_rec PaymentStatus.ERROR (by decide)

/-- C4 (counterexample): a Sepehr response whose body cannot be parsed as
JSON raises nothing; during verify it is mapped to CANCEL_BY_USER and
during pay to `BankGatewayRejectPayment`, refuting the claim that a
malformed response always raises `GatewayConnectionError`. -/
theorem c4_malformed_not_connection_error :
    (sepehr_verify (HttpOutcome.response none) bank0).1 = none
  ∧ (sepehr_verify (HttpOutcome.response none) bank0).2.status = PaymentStatus.CANCEL_BY_USER
  ∧ (sepehr_pay (HttpOutcome.response none) bank0).1
      = some (GatewayError.BankGatewayRejectPayment "Unknown error") := by
  decide

/-- C4 (amended): PEC wraps every failing SOAP exchange (transport or
parse) in `BankGatewayConnectionError`; Sepehr raises
`BankGatewayConnectionError` only for timeouts and connection errors,
while an unparseable body is replaced by the empty JSON object and flows
into the ordinary non-success branches: `BankGatewayRejectPayment
"Unknown error"` during pay and CANCEL_BY_USER during verify. -/
theorem c4_amended_transport_classification (bank : Bank) (ex : String) :
    (pec_pay (Except.error ex) bank).1 = some (GatewayError.BankGatewayConnectionError ex)
  ∧ (pec_verify (Except.error ex) bank).1 = some (GatewayError.BankGatewayConnectionError ex)
  ∧ (sepehr_pay HttpOutcome.timeout bank).1 = some (GatewayError.BankGatewayConnectionError "")
  ∧ (sepehr_pay HttpOutcome.connectionError bank).1
      = some (GatewayError.BankGatewayConnectionError "")
  ∧ (sepehr_verify HttpOutcome.timeout bank).1
      = some (GatewayError.BankGatewayConnectionError "")
  ∧ (sepehr_pay (HttpOutcome.response none) bank).1
      = some (GatewayError.BankGatewayRejectPayment "Unknown error")
  ∧ sepehr_verify (HttpOutcome.response none) bank
      = (none, { bank with status := PaymentStatus.CANCEL_BY_USER }) :=
  ⟨rfl, rfl, rfl, rfl, rfl, rfl, rfl⟩

/-- C5 (counterexample): PEC's freshly generated order id can equal the
tracking code of an existing record of the same bank type: the generator
consults only the random UUID integer, never the stored records, so with
UUID integer 5 and an existing PEC record with tracking code `"5"` the
generated code collides. -/
theorem c5_no_collision_check :
    truthy c5_record.tracking_code = false
  ∧ c5_existing.bank_type = BankType.PEC
  ∧ (pec_prepare_pay 5 c5_record).bank_type = BankType.PEC
  ∧ (pec_prepare_pay 5 c5_record).tracking_code = c5_existing.tracking_code := by
  decide

/-- C5 (amended): when the caller supplied no tracking code,
`PEC.prepare_pay` sets it to the last sixteen decimal digits of a random
UUID integer, rendered as a numeric string, with no collision check
against existing records (the generation depends on nothing but the
random integer). -/
theorem c5_amended_generation (uuid4_int : Nat) (bank : Bank)
    (h : truthy bank.tracking_code = false) :
    (pec_prepare_pay uuid4_int bank).tracking_code
      = some (Nat.repr (uuid4_int % 10 ^ 16)) := by
  simp [pec_prepare_pay, base_prepare_pay, pec_generate_order_id, h]

/-- C5 (witness): the amended statement at a concrete random integer. -/
theorem c5_amended_witness :
    (pec_prepare_pay 987654321 c5_record).tracking_code
      = some (Nat.repr (987654321 % 10 ^ 16)) :=
  c5_amended_generation 987654321 c5_record (by decide)

/-- C6 (counterexample): the same Sepehr callback payload (with a truthy
`token`, so the token-scan loop breaks) delivered as query-string GET data
extracts none of the fields that its form-encoded POST delivery extracts,
and a token-less payload crashes with `AttributeError` before extracting
anything — refuting the claim that every adapter extracts the same
CallbackData from either encoding. -/
theorem c6_sepehr_get_differs_from_post :
    sepehr_prepare_verify_extract { method := HttpMethod.POST, GET := [], POST := c6_payload }
      = Except.ok { tracking_code := some "1000", digital_receipt := some "RCPT", respcode := "0" }
  ∧ sepehr_prepare_verify_extract { method := HttpMethod.GET, GET := c6_payload, POST := [] }
      = Except.ok { tracking_code := none, digital_receipt := none, respcode := "-1" }
  ∧ ({ tracking_code := some "1000", digital_receipt := some "RCPT", respcode := "0" } : SepehrCallback)
      ≠ { tracking_code := none, digital_receipt := none, respcode := "-1" }
  ∧ sepehr_prepare_verify_extract { method := HttpMethod.GET, GET := c6_tokenless, POST := [] }
      = Except.error PyAttributeError.attributeError := by
  exact ⟨rfl, rfl, by decide, rfl⟩

/-- C6 (amended): PEC tolerates both encodings — its Token, OrderId and
CardNumberMasked extractions agree between a POST (form) and a GET
(query) delivery of the same payload, and RRN/sTraceNo agree whenever
present (the branches differ only in their defaults: `None` for POST,
`""` for GET) — while Sepehr first scans `request.GET`, `request.POST`
and then `getattr(request, "data")` for a truthy `token` parameter: when
neither GET nor POST carries one the scan raises `AttributeError` (on the
plain Django request the view passes) before any extraction; when one
does, `invoiceid`, `digitalreceipt` and `respcode` are read from the POST
form data only, so a GET-delivered Sepehr callback yields no tracking
code, no receipt and the default respcode. -/
theorem c6_amended_extraction (ps : List (String × String)) :
    (pec_prepare_verify_extract { method := HttpMethod.POST, GET := [], POST := ps }).token
      = getParam ps "Token"
  ∧ (pec_prepare_verify_extract { method := HttpMethod.GET, GET := ps, POST := [] }).token
      = getParam ps "Token"
  ∧ (pec_prepare_verify_extract { method := HttpMethod.POST, GET := [], POST := ps }).order_id
      = getParam ps "OrderId"
  ∧ (pec_prepare_verify_extract { method := HttpMethod.GET, GET := ps, POST := [] }).order_id
      = getParam ps "OrderId"
  ∧ (pec_prepare_verify_extract { method := HttpMethod.POST, GET := [], POST := ps }).card_number
      = (pec_prepare_verify_extract { method := HttpMethod.GET, GET := ps, POST := [] }).card_number
  ∧ (pec_prepare_verify_extract { method := HttpMethod.POST, GET := [], POST := ps }).rrn
      = getParam ps "RRN"
  ∧ (pec_prepare_verify_extract { method := HttpMethod.GET, GET := ps, POST := [] }).rrn
      = some ((getParam ps "RRN").getD "")
  ∧ sepehr_prepare_verify_extract { method := HttpMethod.GET, GET := ps, POST := [] }
      = (if truthy (getParam ps "token") then
           Except.ok { tracking_code := none, digital_receipt := none, respcode := "-1" }
         else Except.error PyAttributeError.attributeError)
  ∧ sepehr_prepare_verify_extract { method := HttpMethod.POST, GET := [], POST := ps }
      = (if truthy (getParam ps "token") then
           Except.ok { tracking_code := getParam ps "invoiceid"
                       digital_receipt := getParam ps "digitalreceipt"
                       respcode := (getParam ps "respcode").getD "-1" }
         else Except.error PyAttributeError.attributeError) := by
  have hgp : ∀ k : String, getParam [] k = none := fun _ => rfl
  have htr : truthy none = false := rfl
  refine ⟨rfl, rfl, rfl, rfl, rfl, rfl, rfl, ?_, ?_⟩ <;>
    cases ht : truthy (getParam ps "token") <;>
    simp [sepehr_prepare_verify_extract, ht, hgp, htr]

/-- C7: a callback that resolves on neither path — no truthy `bank_type`
query parameter, and the fallback `OrderId` either absent/falsy or
matching no stored `(tracking_code, bank_type = PEC)` record — is
rejected with `Http404`; it is never silently dropped or processed. -/
theorem c7_unresolved_is_404 (db : List Bank) (request : HttpRequest) (verify_raises : Bool)
    (hbt : truthy (getParam request.GET "bank_type") = false)
    (hfb : truthy (pyOr (getParam request.POST "OrderId") (getParam request.GET "OrderId")) = false
      ∨ bank_objects_get_pec db
          ((pyOr (getParam request.POST "OrderId") (getParam request.GET "OrderId")).getD "")
          = GetResult.doesNotExist) :
    callback_route db request = RouteOutcome.http404
  ∧ callback_view db request verify_raises = ViewResponse.http404 := by
  have hroute : callback_route db request = RouteOutcome.http404 := by
    rcases hfb with hfo | hdne
    · simp [callback_route, hbt, hfo]
    · by_cases hto : truthy (pyOr (getParam request.POST "OrderId")
        (getParam request.GET "OrderId")) = true
      · simp [callback_route, hbt, hto, hdne]
      · have hfo : truthy (pyOr (getParam request.POST "OrderId")
          (getParam request.GET "OrderId")) = false := by simpa using hto
        simp [callback_route, hbt, hfo]
  exact ⟨hroute, by simp [callback_view, hroute]⟩

/-- C7 (witness): an unresolvable callback over an empty database. -/
theorem c7_witness :
    callback_route [] c7_request = RouteOutcome.http404
  ∧ callback_view [] c7_request false = ViewResponse.http404 :=
  c7_unresolved_is_404 [] c7_request false (by decide) (Or.inr (by decide))

/-- C8: when the pay network call fails at the transport level the adapter
raises `BankGatewayConnectionError` and the record's status is left
untouched: if it was INIT before the call it is still INIT afterwards
(for Sepehr timeouts and connection errors, and for PEC transport
exceptions alike). -/
theorem c8_transport_failure_keeps_init (bank : Bank) (ex : String)
    (h : bank.status = PaymentStatus.INIT) :
    (sepehr_pay HttpOutcome.timeout bank).1 = some (GatewayError.BankGatewayConnectionError "")
  ∧ (sepehr_pay HttpOutcome.timeout bank).2.status = PaymentStatus.INIT
  ∧ (sepehr_pay HttpOutcome.connectionError bank).2.status = PaymentStatus.INIT
  ∧ (pec_pay (Except.error ex) bank).1 = some (GatewayError.BankGatewayConnectionError ex)
  ∧ (pec_pay (Except.error ex) bank).2.status = PaymentStatus.INIT :=
  ⟨rfl, h, h, rfl, h⟩

/-- C8 (witness): a timed-out pay call on a fresh INIT record. -/
theorem c8_witness :
    (sepehr_pay HttpOutcome.timeout bank0).1 = some (GatewayError.BankGatewayConnectionError "")
  ∧ (sepehr_pay HttpOutcome.timeout bank0).2.status = PaymentStatus.INIT
  ∧ (sepehr_pay HttpOutcome.connectionError bank0).2.status = PaymentStatus.INIT
  ∧ (pec_pay (Except.error "timed out") bank0).1
      = some (GatewayError.BankGatewayConnectionError "timed out")
  ∧ (pec_pay (Except.error "timed out") bank0).2.status = PaymentStatus.INIT :=
  c8_transport_failure_keeps_init bank0 "timed out" rfl

/-- C9: whenever the router resolves the callback to an adapter, the
view's response is the client redirect — whether or not
`verify_from_gateway` raises an `AZBankGatewaysException`, since the view
catches and logs it. -/
theorem c9_redirect_despite_verify_failure (db : List Bank) (request : HttpRequest)
    (bt : String) (ident : Option String) (verify_raises : Bool)
    (h : callback_route db request = RouteOutcome.resolved bt ident) :
    callback_view db request verify_raises = ViewResponse.clientRedirect := by
  unfold callback_view
  rw [h]
  cases verify_raises <;> rfl

/-- C9 (witness): a resolved callback whose verification step raises. -/
theorem c9_witness :
    callback_view [] c9_request true = ViewResponse.clientRedirect :=
  c9_redirect_despite_verify_failure [] c9_request "PEC" (some "2") true (by decide)

/-- C10: the `Amount` field of every Sepehr pay request is ten times the
gateway amount rendered as a decimal string, the adapter's declared
gateway currency is IRR, and the pay step never changes the record's
stored amount. -/
theorem c10_sepehr_amount_tenfold (terminal_id callback_url tracking_code : String)
    (gateway_amount : Nat) (http : HttpOutcome) (bank : Bank) :
    getParam (sepehr_get_pay_data terminal_id callback_url tracking_code gateway_amount) "Amount"
      = some (Nat.repr (gateway_amount * 10))
  ∧ sepehr_gateway_currency = CurrencyEnum.IRR
  ∧ (sepehr_pay http bank).2.amount = bank.amount := by
  refine ⟨rfl, rfl, ?_⟩
  cases http with
  | timeout => rfl
  | connectionError => rfl
  | response body =>
    simp only [sepehr_pay, sepehr_send_data, base_pay]
    (repeat' split) <;> rfl

end AzBankGateways
